import Mathlib

/-!
Verification of the girlscout game-server bridge.

Shallow embedding of the Rust sources (src/monitor.rs, src/rcon.rs,
src/main.rs) into Lean.  32-bit machine integers are represented as
natural numbers below 2^32 holding the two's-complement bit pattern,
with wrapping made explicit via `% 2^32` (or `% 256` for bytes).
Fallible code (a Rust panic or an `Err` return) is modelled with
`Option` / `Except`.
-/

namespace Girlscout

/-! ### Varint codec (src/monitor.rs, `varint_encode` / `varint_decode`)

`varint_encode` writes into a caller-supplied buffer; we model the buffer by
its remaining capacity and return the bytes written.  Reaching the end of the
buffer without finishing hits the `unreachable!()` panic, modelled as `none`.
The i32 value is carried as its unsigned 32-bit pattern. -/

/-- Arithmetic (sign-propagating) right shift of a 32-bit pattern by `k`,
modelling Rust's `>>` on `i32`. -/
def sar32 (v k : ℕ) : ℕ :=
  if v < 2 ^ 31 then v >>> k else (v >>> k) ||| ((2 ^ k - 1) <<< (32 - k))

/-- `(value & !SEGMENT) == 0` with `SEGMENT = 0x7F`: on a 32-bit pattern this
masks with `0xFFFFFF80`. -/
def varintDone (v : ℕ) : Bool := v &&& 0xFFFFFF80 == 0

def varint_encode_go (value : ℕ) : ℕ → Option (List ℕ)
  | 0 => none
  | fuel + 1 =>
    if varintDone value then
      some [value % 256]
    else
      (varint_encode_go (sar32 value 7) fuel).map
        (fun rest => (((value &&& 0x7F) ||| 0x80) % 256) :: rest)

/-- `varint_encode(value, out)` for a buffer of length `bufLen`: the list of
bytes written (its length is the returned `usize`), or `none` when the loop
runs off the end of the buffer and panics. -/
def varint_encode (value bufLen : ℕ) : Option (List ℕ) :=
  varint_encode_go value bufLen

/-- One step of `varint_decode`'s accumulator update, exactly as the source
computes it: `x |= ((byte * 0x7F) as i32) << (7 * i)`.  The `u8`
multiplication wraps at 256 (release-mode semantics), the cast to `i32`
zero-extends, and the left shift discards bits beyond 31. -/
def varint_decode_step (x b i : ℕ) : ℕ :=
  x ||| ((((b * 0x7F) % 256) <<< (7 * i)) % 2 ^ 32)

def varint_decode_go (x i : ℕ) : List ℕ → ℕ × ℕ
  | [] => (x, 5)
  | b :: rest =>
    let x := varint_decode_step x b i
    if b &&& 0x80 == 0 then (x, i + 1) else varint_decode_go x (i + 1) rest

/-- `varint_decode(bytes)`: the decoded 32-bit pattern and the number of
bytes consumed (`len` stays at its initial value 5 when no byte terminates
the loop). -/
def varint_decode (bytes : List ℕ) : ℕ × ℕ :=
  varint_decode_go 0 0 bytes

/-! ### Console protocol packets (src/rcon.rs) -/

def MAX_PAYLOAD : ℕ := 4096

/-- `RconPacket`: fixed-layout console packet.  The `i32` header fields are
carried as integers; `payload` is the 4096-byte array; the two trailing zero
bytes are implicit in the layout and accounted for in `length`. -/
structure RconPacket where
  length : ℤ
  req_id : ℤ
  ptype : ℤ
  payload : List ℕ

/-- `RconPacket::new`.  `length = size_of::<i32>() * 2 + payload.len() + 2`;
the payload is copied into the zero-initialised 4096-byte array.  When the
payload is longer than `MAX_PAYLOAD`, the slice `payload[..pbytes.len()]`
is out of bounds and the construction panics, modelled as `none`. -/
def RconPacket.new (req_id ptype : ℤ) (payload : List ℕ) : Option RconPacket :=
  if payload.length ≤ MAX_PAYLOAD then
    some { length := (4 * 2 : ℤ) + payload.length + 2
           req_id := req_id
           ptype := ptype
           payload := payload ++ List.replicate (MAX_PAYLOAD - payload.length) 0 }
  else
    none

/-- `RconPacket::payload`, at the byte level (the source additionally views
the bytes as UTF-8, which is injective on them): the first
`length - size_of::<i32>() * 2 - 2` bytes of the payload array. -/
def RconPacket.payloadBytes (p : RconPacket) : List ℕ :=
  p.payload.take (p.length.toNat - 4 * 2 - 2)

/-- Outcome of `RconClient::send`'s response verification.
`authenticationFailed` is the `PermissionDenied`/"Unauthorized" error and
`protocolMismatch` the "Response does not match request" error. -/
inductive SendResult where
  | ok (payload : List ℕ)
  | authenticationFailed
  | protocolMismatch
  deriving DecidableEq

/-- The response-verification step of `RconClient::send`: the match with the
sent request id is checked first, then the `-1` sentinel. -/
def sendVerify (sent : ℤ) (resp : RconPacket) : SendResult :=
  if resp.req_id = sent then .ok resp.payloadBytes
  else if resp.req_id = -1 then .authenticationFailed
  else .protocolMismatch

/-! ### JSON values (the subset of serde_json the sources use) -/

inductive Json where
  | null
  | bool (b : Bool)
  | num (n : ℤ)
  | str (s : String)
  | arr (elems : List Json)
  | obj (fields : List (String × Json))

/-- `Value::index` (`status["key"]`): field lookup that yields `Null` for a
missing key or a non-object receiver. -/
def Json.index (j : Json) (key : String) : Json :=
  match j with
  | .obj fields =>
    match fields.find? (fun f => f.1 == key) with
    | some f => f.2
    | none => .null
  | _ => .null

/-- `Value::as_u64`: some only for a non-negative integer number. -/
def Json.asU64 : Json → Option ℕ
  | .num n => if 0 ≤ n then some n.toNat else none
  | _ => none

/-- `Value::as_array`. -/
def Json.asArr : Json → Option (List Json)
  | .arr xs => some xs
  | _ => none

/-- `Value::as_str`. -/
def Json.asStr : Json → Option String
  | .str s => some s
  | _ => none

/-- JSON string escaping as used by serde_json's compact serializer, for the
characters that occur in game-server payloads. -/
def jsonEscapeChar (c : Char) : String :=
  if c = '"' then "\\\""
  else if c = '\\' then "\\\\"
  else if c = '\n' then "\\n"
  else if c = '\t' then "\\t"
  else if c = '\r' then "\\r"
  else String.singleton c

/-- `Value`'s `Display`/`to_string()`: compact JSON serialization.  In
particular `Null` renders as the four characters `null` and a string renders
surrounded by quotes. -/
def Json.render : Json → String
  | .null => "null"
  | .bool b => if b then "true" else "false"
  | .num n => toString n
  | .str s => "\"" ++ String.join (s.toList.map jsonEscapeChar) ++ "\""
  | .arr xs => "[" ++ String.intercalate "," (xs.attach.map (fun x => x.1.render)) ++ "]"
  | .obj fs =>
    "\x7b" ++
      String.intercalate ","
        (fs.attach.map (fun f => "\"" ++ String.join (f.1.1.toList.map jsonEscapeChar) ++
          "\":" ++ f.1.2.render)) ++ "\x7d"
decreasing_by
  · rcases x with ⟨x, hx⟩
    have := List.sizeOf_lt_of_mem hx
    simp only [Json.arr.sizeOf_spec]
    omega
  · rcases f with ⟨⟨a, b⟩, hf⟩
    have := List.sizeOf_lt_of_mem hf
    simp only [Json.obj.sizeOf_spec, Prod.mk.sizeOf_spec] at *
    omega

/-! ### Status-ping parsing (src/monitor.rs, `MonitorService::run_status`) -/

/-- The characters after the first comma, if any. -/
def splitAfterCommaChars : List Char → Option (List Char)
  | [] => none
  | c :: rest => if c = ',' then some rest else splitAfterCommaChars rest

/-- `split_once(',').map_or("", |d| d.1)`: everything after the first comma,
or the empty string when there is none. -/
def splitOnceAfterComma (s : String) : String :=
  match splitAfterCommaChars s.toList with
  | some rest => String.mk rest
  | none => ""

/-- The fields `run_status` extracts from one decoded status payload. -/
structure StatusFields where
  version : String
  description : String
  player_count : ℕ
  player_max : ℕ
  player_sample : String
  favicon : String
  deriving DecidableEq

/-- The field extraction of `run_status` on a parsed status payload:
`version` and `description` are produced with `Value::to_string()` (JSON
serialization), the player numbers with `as_u64().unwrap_or(0)`, the sample
by joining the entries' serialized `name`s with `", "` (`"Unknown"` when
`players.sample` is not an array), and the favicon by stripping everything
up to the first comma of the data URL. -/
def parseStatus (status : Json) : StatusFields :=
  let players := status.index "players"
  { version := ((status.index "version").index "name").render
    description := ((status.index "description").index "text").render
    player_count := ((players.index "online").asU64).getD 0
    player_max := ((players.index "max").asU64).getD 0
    player_sample :=
      match (players.index "sample").asArr with
      | some ps => String.intercalate ", " (ps.map (fun p => (p.index "name").render))
      | none => "Unknown"
    favicon := splitOnceAfterComma (((status.index "favicon").asStr).getD "") }

/-! ### Base64 (the external `base64` crate's standard alphabet, with
padding required and no trailing bits allowed) -/

def b64Val (c : Char) : Option ℕ :=
  if 'A' ≤ c ∧ c ≤ 'Z' then some (c.toNat - 65)
  else if 'a' ≤ c ∧ c ≤ 'z' then some (c.toNat - 97 + 26)
  else if '0' ≤ c ∧ c ≤ '9' then some (c.toNat - 48 + 52)
  else if c = '+' then some 62
  else if c = '/' then some 63
  else none

def base64DecodeGo : List Char → Option (List ℕ)
  | [] => some []
  | a :: b :: c :: d :: rest => do
    let va ← b64Val a
    let vb ← b64Val b
    if c = '=' then
      if d = '=' ∧ rest = [] ∧ vb % 16 = 0 then
        some [(va <<< 2) ||| (vb >>> 4)]
      else none
    else do
      let vc ← b64Val c
      if d = '=' then
        if rest = [] ∧ vc % 4 = 0 then
          some [(va <<< 2) ||| (vb >>> 4), ((vb % 16) <<< 4) ||| (vc >>> 2)]
        else none
      else do
        let vd ← b64Val d
        let tail ← base64DecodeGo rest
        some (((va <<< 2) ||| (vb >>> 4)) ::
          (((vb % 16) <<< 4) ||| (vc >>> 2)) ::
          (((vc % 4) <<< 6) ||| vd) :: tail)
  | _ => none

/-- `BASE64_STANDARD.decode`. -/
def base64Decode (s : String) : Option (List ℕ) :=
  base64DecodeGo s.toList

/-! ### One iteration of the `run_status` polling loop -/

/-- The embed accent colors used by `run_status` (serenity constants). -/
inductive EmbedColor where
  | fooyoo
  | red
  deriving DecidableEq

/-- The `EditAttachments` value carried across iterations: empty, a fresh
attachment from decoded favicon bytes, or a keep-by-id reference. -/
inductive Attachments where
  | empty
  | create (bytes : List ℕ)
  | keep (id : ℕ)
  deriving DecidableEq

/-- What the iteration observes of the fetched anchor message. -/
structure Message where
  attachmentsEmpty : Bool
  firstAttachmentId : ℕ
  deriving DecidableEq

/-- The loop-carried variables of `run_status` that survive from one
iteration to the next (`player_count`, `player_sample` and `is_online` are
reassigned on every path through an iteration). -/
structure StatusState where
  version : String
  description : String
  player_max : ℕ
  prev_favicon : String
  attachments : Attachments
  deriving DecidableEq

/-- Their values before the first iteration. -/
def initialStatusState : StatusState :=
  { version := "Unknown"
    description := ""
    player_max := 0
    prev_favicon := ""
    attachments := .empty }

/-- The embed content published by `msg.edit`. -/
structure Render where
  title : String
  description : String
  statusField : String
  color : EmbedColor
  playersField : String
  versionField : String
  sampleField : String
  attachments : Attachments
  deriving DecidableEq

def mkStatusRender (name : String) (s : StatusState) (statusField : String)
    (color : EmbedColor) (count : ℕ) (sample : String) : Render :=
  { title := name
    description := s.description
    statusField := statusField
    color := color
    playersField := toString count ++ "/" ++ toString s.player_max
    versionField := s.version
    sampleField := sample
    attachments := s.attachments }

/-- How one poll iteration can fail (each variant is an `Err` propagated by
`?` out of `run_status`). -/
inductive PollError where
  | publish    -- `get_message` or `msg.edit` failed
  | transport  -- `write_all` / `read_exact` failed after connecting
  | malformed  -- `json::from_slice` failed
  | badFavicon -- `BASE64_STANDARD.decode` failed
  deriving DecidableEq

/-- What the network produced during one poll: `TcpStream::connect` failed;
it succeeded but a write or read then failed; the bytes read were not valid
JSON; or a status payload was read and decoded. -/
inductive NetOutcome where
  | connectFail
  | ioError
  | badJson
  | response (status : Json)

/-- One iteration of the `run_status` loop body, from `get_message` to
`msg.edit`, as a function of the loop-carried state and of the outcomes of
the fallible external calls (`msg?` is the `get_message` result, `editOk`
whether `msg.edit` succeeds).  Returns the new loop-carried state and the
published render, or the error that `?` propagates. -/
def run_status_iter (name : String) (s : StatusState) (msg? : Option Message)
    (net : NetOutcome) (editOk : Bool) : Except PollError (StatusState × Render) :=
  match msg? with
  | none => .error .publish
  | some msg =>
    let step : StatusState → ℕ → String → Bool → EmbedColor →
        Except PollError (StatusState × Render) :=
      fun s' count sample isOnline color =>
        if editOk then
          .ok (s', mkStatusRender name s'
            (if isOnline then "ONLINE" else "OFFLINE") color count sample)
        else .error .publish
    match net with
    | .connectFail => step s 0 "None" false .red
    | .ioError => .error .transport
    | .badJson => .error .malformed
    | .response status =>
      let f := parseStatus status
      if msg.attachmentsEmpty || f.favicon != s.prev_favicon then
        match base64Decode f.favicon with
        | none => .error .badFavicon
        | some bytes =>
          step { version := f.version, description := f.description,
                 player_max := f.player_max, prev_favicon := f.favicon,
                 attachments := .create bytes }
            f.player_count f.player_sample true .fooyoo
      else
        step { version := f.version, description := f.description,
               player_max := f.player_max, prev_favicon := s.prev_favicon,
               attachments := .keep msg.firstAttachmentId }
          f.player_count f.player_sample true .fooyoo

/-! ### Service registry (src/monitor.rs `sub`, `MonitorService::run`) -/

/-- `Vec::swap_remove(i)`: element `i` is replaced by the last element,
which is then popped. -/
def swapRemove (l : List ℕ) (i : ℕ) : List ℕ :=
  match l.getLast? with
  | none => []
  | some last => (l.set i last).dropLast

/-- The existence check of `sub::start`: one lock acquisition over the
service list (services identified by their channel id). -/
def regCheck (services : List ℕ) (c : ℕ) : Bool :=
  services.any (fun s => s == c)

/-- The insertion performed by `start_service`: a separate lock acquisition
that pushes the new service. -/
def regInsert (services : List ℕ) (c : ℕ) : List ℕ :=
  services ++ [c]

/-- A `start` invocation in flight.  `pc = 0`: about to run the existence
check; `pc = 1`: check passed, about to insert; `pc = 2`: done;
`pc = 3`: returned AlreadyExists.  The two lock acquisitions are the atomic
steps; between them the lock is free (the source awaits the anchor-message
send and `defer_ephemeral` there). -/
structure StartTask where
  channel : ℕ
  pc : ℕ

/-- One atomic step of a `start` invocation against the registry. -/
def startStep (reg : List ℕ) (t : StartTask) : List ℕ × StartTask :=
  match t.pc with
  | 0 => if regCheck reg t.channel then (reg, { t with pc := 3 })
         else (reg, { t with pc := 1 })
  | 1 => (regInsert reg t.channel, { t with pc := 2 })
  | _ => (reg, t)

/-- Run two concurrent `start` invocations under a schedule: each entry of
the schedule lets the named task take its next atomic step. -/
def runTwoStarts (reg : List ℕ) (t₁ t₂ : StartTask) :
    List (Fin 2) → List ℕ × StartTask × StartTask
  | [] => (reg, t₁, t₂)
  | i :: rest =>
    if i = 0 then
      let (reg', t₁') := startStep reg t₁
      runTwoStarts reg' t₁' t₂ rest
    else
      let (reg', t₂') := startStep reg t₂
      runTwoStarts reg' t₁ t₂' rest

/-- The exit bookkeeping of `MonitorService::run`: remove the service on
`Ok(false)` or on any error. -/
def shouldRemove (res : Except PollError Bool) : Bool :=
  match res with
  | .ok false => true
  | .error _ => true
  | .ok true => false

/-- The self-removal in `MonitorService::run`: find the position of the
entry with this service's channel id (`unwrap`, so `none` models the panic
when it is absent) and `swap_remove` it. -/
def serviceSelfRemove (services : List ℕ) (c : ℕ) : Option (List ℕ) :=
  (services.findIdx? (fun s => s == c)).map (swapRemove services)

/-! ### Persistence (src/main.rs shutdown task and setup, derived serde
instances of `MonitorService` / `MonitorType`) -/

/-- `MonitorType`: the persisted variant of a monitor. -/
inductive MonitorType where
  | status (name : String) (host : String) (port : ℕ) (mid : ℕ)
  | advancement (port : ℕ)
  | death (port : ℕ)
  deriving DecidableEq

/-- The persisted part of a `MonitorService` (`http` and `token` carry
`#[serde(skip)]`). -/
structure MonitorDescriptor where
  channel_id : ℕ
  monitor_type : MonitorType
  deriving DecidableEq

/-- Discord snowflake ids serialize as JSON numbers in this model. -/
def encodeId (n : ℕ) : Json := .num n

def decodeId (j : Json) : Option ℕ := j.asU64

/-- The derived externally-tagged serialization of `MonitorType`. -/
def encodeMonitorType : MonitorType → Json
  | .status name host port mid =>
    .obj [("Status", .obj [("name", .str name), ("host", .str host),
      ("port", .num port), ("mid", encodeId mid)])]
  | .advancement port => .obj [("Advancement", .obj [("port", .num port)])]
  | .death port => .obj [("Death", .obj [("port", .num port)])]

/-- The corresponding deserialization (`serde_json::from_value`). -/
def decodeMonitorType (j : Json) : Option MonitorType :=
  match j with
  | .obj [(tag, body)] =>
    if tag = "Status" then do
      let name ← (body.index "name").asStr
      let host ← (body.index "host").asStr
      let port ← (body.index "port").asU64
      let mid ← decodeId (body.index "mid")
      pure (.status name host port mid)
    else if tag = "Advancement" then do
      let port ← (body.index "port").asU64
      pure (.advancement port)
    else if tag = "Death" then do
      let port ← (body.index "port").asU64
      pure (.death port)
    else none
  | _ => none

/-- The derived serialization of one registry entry. -/
def encodeService (d : MonitorDescriptor) : Json :=
  .obj [("channel_id", encodeId d.channel_id),
        ("monitor_type", encodeMonitorType d.monitor_type)]

/-- `serde_json::to_string(&*services)` at shutdown: the persisted value. -/
def persist (services : List MonitorDescriptor) : Json :=
  .arr (services.map encodeService)

/-- The restore path in setup: parse a list of values, then rebuild each
service from `value["channel_id"]` and `value["monitor_type"]` (each
`unwrap`ped, so `none` models the panic). -/
def restoreOne (v : Json) : Option MonitorDescriptor := do
  let c ← decodeId (v.index "channel_id")
  let t ← decodeMonitorType (v.index "monitor_type")
  pure { channel_id := c, monitor_type := t }

def restoreList : List Json → Option (List MonitorDescriptor)
  | [] => some []
  | v :: rest => do
    let d ← restoreOne v
    let ds ← restoreList rest
    pure (d :: ds)

def restore (j : Json) : Option (List MonitorDescriptor) :=
  match j with
  | .arr vs => restoreList vs
  | _ => none

end Girlscout

namespace Girlscout

/-- C1: the varint codec does not round-trip.  `varint_encode` emits the
single byte `[1]` for the value 1 (and a 5-byte buffer), but `varint_decode`
returns 127 for that encoding, because the decoder computes `byte * 0x7F`
where the wire format requires `byte & 0x7F`.  Moreover the encoder cannot
emit the pattern of `-1 : i32` at all: the sign-propagating shift keeps the
value negative, the loop exhausts the 5-byte buffer and reaches the
`unreachable!()` panic. -/
theorem varint_roundtrip_fails_at_one :
    varint_encode 1 5 = some [1] ∧
    varint_decode [1] = (127, 1) ∧ (127 : ℕ) ≠ 1 ∧
    varint_encode 0xFFFFFFFF 5 = none := by
  refine ⟨by decide, by decide, by decide, by decide⟩

/-- C6: for a payload of length `L ≤ MAX_PAYLOAD`, `RconPacket::new`
succeeds, its declared length field is `8 + L + 2`, and `RconPacket::payload`
recovers exactly the original payload bytes. -/
theorem rconPacket_framing_roundtrip (r t : ℤ) (pl : List ℕ)
    (h : pl.length ≤ MAX_PAYLOAD) :
    ∃ p, RconPacket.new r t pl = some p ∧
      p.length = 8 + pl.length + 2 ∧ p.payloadBytes = pl := by
  refine ⟨_, by rw [RconPacket.new, if_pos h], by push_cast; ring, ?_⟩
  show (pl ++ List.replicate (MAX_PAYLOAD - pl.length) 0).take
      (((4 * 2 : ℤ) + pl.length + 2).toNat - 4 * 2 - 2) = pl
  have : ((4 * 2 : ℤ) + pl.length + 2).toNat = pl.length + 10 := by
    omega
  rw [this]
  simp [List.take_append_of_le_length]

/-- C6 witness at the concrete payload `[104, 105]`. -/
theorem rconPacket_framing_roundtrip_witness :
    ([104, 105] : List ℕ).length ≤ MAX_PAYLOAD ∧
      ∃ p, RconPacket.new 7 2 [104, 105] = some p ∧
        p.length = 8 + ([104, 105] : List ℕ).length + 2 ∧
        p.payloadBytes = [104, 105] :=
  ⟨by decide, rconPacket_framing_roundtrip 7 2 [104, 105] (by decide)⟩

/-- C7: a payload of exactly `MAX_PAYLOAD` bytes is accepted by
`RconPacket::new`, but a payload one byte longer makes the copy
`payload[..pbytes.len()]` index out of bounds, a panic (`none`) rather than
a rejection or a deterministic truncation. -/
theorem rconPacket_new_panics_beyond_cap :
    (RconPacket.new 0 2 (List.replicate 4096 97)).isSome = true ∧
    RconPacket.new 0 2 (List.replicate 4097 97) = none := by
  have h1 : (List.replicate 4096 97).length ≤ MAX_PAYLOAD := by
    rw [List.length_replicate]; decide
  have h2 : ¬(List.replicate 4097 97).length ≤ MAX_PAYLOAD := by
    rw [List.length_replicate]; decide
  exact ⟨by rw [RconPacket.new, if_pos h1]; rfl, by rw [RconPacket.new, if_neg h2]⟩

/-- C5 counterexample: a crafted response with request id `-1` does NOT
yield AuthenticationFailed when the id that was sent is also `-1` (the
counter wraps, so `-1` is a reachable request id): the source checks the
match with the sent id before the sentinel, so this response succeeds. -/
theorem sendVerify_sentinel_not_checked_first :
    sendVerify (-1)
      { length := 10, req_id := -1, ptype := 0, payload := List.replicate MAX_PAYLOAD 0 }
      = SendResult.ok [] ∧
    sendVerify (-1)
      { length := 10, req_id := -1, ptype := 0, payload := List.replicate MAX_PAYLOAD 0 }
      ≠ SendResult.authenticationFailed := by
  constructor
  · show SendResult.ok (List.take _ _) = _
    norm_num [sendVerify, RconPacket.payloadBytes]
  · intro h
    rw [sendVerify, if_pos rfl] at h
    exact SendResult.noConfusion h

/-- C5 amended: when the response's request id differs from the sent one,
the sentinel `-1` yields AuthenticationFailed and any other id yields
ProtocolMismatch; a response id equal to the sent id (including `-1`)
succeeds, because the match check runs before the sentinel check. -/
theorem sendVerify_cases (sent : ℤ) (resp : RconPacket) :
    (resp.req_id ≠ sent → resp.req_id = -1 →
      sendVerify sent resp = SendResult.authenticationFailed) ∧
    (resp.req_id ≠ sent → resp.req_id ≠ -1 →
      sendVerify sent resp = SendResult.protocolMismatch) := by
  unfold sendVerify
  refine ⟨fun h1 h2 => ?_, fun h1 h2 => ?_⟩
  · rw [if_neg h1, if_pos h2]
  · rw [if_neg h1, if_neg h2]

/-- C2: the existence check of `sub::start` and the insertion of
`start_service` are separate lock acquisitions (the source awaits the
anchor-message send and `defer_ephemeral` in between), so they are not
atomic: under the interleaving check₁, check₂, insert₁, insert₂ two `start`
invocations on channel 5 both pass the check and both insert, leaving the
registry `[5, 5]` with a duplicated channel id, both tasks reporting
success — while the fully sequential schedule leaves `[5]`. -/
theorem start_check_insert_not_atomic :
    (runTwoStarts [] ⟨5, 0⟩ ⟨5, 0⟩ [0, 1, 0, 1]).1 = [5, 5] ∧
    (runTwoStarts [] ⟨5, 0⟩ ⟨5, 0⟩ [0, 1, 0, 1]).2.1.pc = 2 ∧
    (runTwoStarts [] ⟨5, 0⟩ ⟨5, 0⟩ [0, 1, 0, 1]).2.2.pc = 2 ∧
    ¬(runTwoStarts [] ⟨5, 0⟩ ⟨5, 0⟩ [0, 1, 0, 1]).1.Nodup ∧
    (runTwoStarts [] ⟨5, 0⟩ ⟨5, 0⟩ [0, 0, 1, 1]).1 = [5] := by
  refine ⟨by decide, by decide, by decide, by decide, by decide⟩

/-- C3 counterexample: a poll in which the connection is established but
the subsequent read (or write) fails does NOT render the OFFLINE state: the
`?` operator propagates the error out of `run_status`, ending the poll
cycle (and the service) with an error. -/
theorem read_failure_not_rendered_offline :
    run_status_iter "Server" initialStatusState (some ⟨true, 0⟩) .ioError true
      = .error .transport := rfl

/-- C3 amended: only a connection-establishment failure is reported as
OFFLINE (the render carries status "OFFLINE" with the red accent color and
the loop continues); an I/O failure on the established connection instead
returns a transport error from the poll cycle. -/
theorem run_status_offline_policy (name : String) (s : StatusState) (msg : Message) :
    run_status_iter name s (some msg) .connectFail true
      = .ok (s, mkStatusRender name s "OFFLINE" .red 0 "None") ∧
    run_status_iter name s (some msg) .ioError true = .error .transport :=
  ⟨rfl, rfl⟩

/-- C4 counterexample: on a status payload that is an empty JSON object,
the parsed player count and max are 0 and the sample is "Unknown" as the
spec says, but the version and description are the string `null` — the
JSON serialization of the absent field — not "Unknown" and not the empty
string. -/
theorem parseStatus_absent_fields_not_spec_defaults :
    parseStatus (Json.obj []) =
      { version := "null", description := "null", player_count := 0,
        player_max := 0, player_sample := "Unknown", favicon := "" } ∧
    ("null" : String) ≠ "Unknown" ∧ ("null" : String) ≠ "" := by
  refine ⟨?_, by decide, by decide⟩
  simp [parseStatus, Json.index, Json.asU64, Json.asArr, Json.asStr, Json.render,
    splitOnceAfterComma, splitAfterCommaChars]

/-- C4 amended: when the respective parts of the payload are absent or of
the wrong shape, the online player count and player max default to 0 and
the joined player sample defaults to "Unknown"; the version name and the
description text, however, are produced by `Value::to_string()` and
therefore come out as the JSON serialization `"null"` of the missing
field rather than as "Unknown" or the empty string. -/
theorem parseStatus_defaults (j : Json)
    (hv : (j.index "version").index "name" = .null)
    (hd : (j.index "description").index "text" = .null)
    (ho : ((j.index "players").index "online").asU64 = none)
    (hm : ((j.index "players").index "max").asU64 = none)
    (hs : ((j.index "players").index "sample").asArr = none) :
    (parseStatus j).version = "null" ∧
    (parseStatus j).description = "null" ∧
    (parseStatus j).player_count = 0 ∧
    (parseStatus j).player_max = 0 ∧
    (parseStatus j).player_sample = "Unknown" := by
  simp [parseStatus, hv, hd, ho, hm, hs, Json.render]

/-- C4 amended, witness at the empty status object. -/
theorem parseStatus_defaults_witness :
    (parseStatus (Json.obj [])).version = "null" ∧
    (parseStatus (Json.obj [])).description = "null" ∧
    (parseStatus (Json.obj [])).player_count = 0 ∧
    (parseStatus (Json.obj [])).player_max = 0 ∧
    (parseStatus (Json.obj [])).player_sample = "Unknown" :=
  parseStatus_defaults (Json.obj []) rfl rfl rfl rfl rfl

/-- C5 amended, witness: a response id `-1` against sent id 0 fails
authentication; a response id 7 against sent id 0 is a protocol mismatch. -/
theorem sendVerify_cases_witness :
    sendVerify 0 { length := 10, req_id := -1, ptype := 0, payload := [] }
      = SendResult.authenticationFailed ∧
    sendVerify 0 { length := 10, req_id := 7, ptype := 0, payload := [] }
      = SendResult.protocolMismatch :=
  ⟨(sendVerify_cases 0 _).1 (by decide) rfl,
   (sendVerify_cases 0 _).2 (by decide) (by decide)⟩

/-- Helper: `swap_remove` at a positive index of a longer list removes from
the tail. -/
theorem swapRemove_cons (a : ℕ) (l : List ℕ) (i : ℕ) (h : l ≠ []) :
    swapRemove (a :: l) (i + 1) = a :: swapRemove l i := by
  match l, h with
  | b :: l, _ =>
    cases hlast : (b :: l).getLast? with
    | none =>
      rw [List.getLast?_eq_getLast_of_ne_nil (by simp)] at hlast
      exact absurd hlast (by simp)
    | some last =>
      simp only [swapRemove, List.getLast?_cons_cons, hlast]
      cases i with
      | zero => rfl
      | succ n => rfl

/-- Helper: removing the unique occurrence of a channel id with the
`position`/`swap_remove` pattern of `MonitorService::run` succeeds and
leaves a list without that channel id. -/
theorem serviceSelfRemove_unique (c : ℕ) :
    ∀ l₁ l₂ : List ℕ, c ∉ l₁ → c ∉ l₂ →
      ∃ lr, serviceSelfRemove (l₁ ++ c :: l₂) c = some lr ∧ c ∉ lr := by
  intro l₁
  induction l₁ with
  | nil =>
    intro l₂ _ h₂
    refine ⟨swapRemove (c :: l₂) 0, ?_, ?_⟩
    · simp [serviceSelfRemove, List.findIdx?_cons]
    · cases l₂ with
      | nil => simp [swapRemove]
      | cons b l =>
        have hne : (b :: l : List ℕ) ≠ [] := by simp
        simp only [swapRemove, List.getLast?_cons_cons,
          List.getLast?_eq_getLast_of_ne_nil hne]
        show c ∉ (b :: l).getLast hne :: (b :: l).dropLast
        intro hmem
        rcases List.mem_cons.mp hmem with h | h
        · exact h₂ (h ▸ List.getLast_mem hne)
        · exact h₂ (List.dropLast_subset _ h)
  | cons a l₁ ih =>
    intro l₂ h₁ h₂
    have hac : ((fun s => s == c) a) = false := by
      simp only [beq_eq_false_iff_ne, ne_eq]
      intro h
      exact h₁ (by simp [h])
    obtain ⟨lr, hEq, hMem⟩ := ih l₂ (fun h => h₁ (List.mem_cons_of_mem a h)) h₂
    obtain ⟨i, hIdx, hSwap⟩ :
        ∃ i, (l₁ ++ c :: l₂).findIdx? (fun s => s == c) = some i ∧
          swapRemove (l₁ ++ c :: l₂) i = lr := by
      cases hidx : (l₁ ++ c :: l₂).findIdx? (fun s => s == c) with
      | none =>
        rw [serviceSelfRemove, hidx] at hEq
        exact absurd hEq (by simp)
      | some i =>
        rw [serviceSelfRemove, hidx] at hEq
        exact ⟨i, rfl, by simpa using hEq⟩
    have hac' : (a == c) = false := hac
    refine ⟨a :: lr, ?_, ?_⟩
    · rw [serviceSelfRemove, List.cons_append, List.findIdx?_cons]
      simp only [hac', Bool.false_eq_true, if_false, List.findIdx?_succ, hIdx,
        Option.map_some']
      rw [swapRemove_cons a _ i (by simp), hSwap]
    · intro hmem
      rcases List.mem_cons.mp hmem with h | h
      · exact h₁ (by simp [h])
      · exact hMem h

/-- C8: `MonitorService::run` removes the service when the loop exits with
an error (a MalformedResponse from status decoding, a publish failure) or
with `Ok(false)`; when the registry holds exactly one entry for the
service's channel, the removal succeeds and a listing taken afterwards no
longer contains that channel. -/
theorem run_error_exit_self_removes (e : PollError) (l₁ l₂ : List ℕ) (c : ℕ)
    (h₁ : c ∉ l₁) (h₂ : c ∉ l₂) :
    shouldRemove (.error e) = true ∧
    shouldRemove (.ok false) = true ∧
    shouldRemove (.ok true) = false ∧
    ∃ lr, serviceSelfRemove (l₁ ++ c :: l₂) c = some lr ∧ c ∉ lr :=
  ⟨rfl, rfl, rfl, serviceSelfRemove_unique c l₁ l₂ h₁ h₂⟩

/-- C8 witness: removing channel 5 from the registry `[1, 5, 2]`. -/
theorem run_error_exit_self_removes_witness :
    shouldRemove (.error .malformed) = true ∧
    shouldRemove (.ok false) = true ∧
    shouldRemove (.ok true) = false ∧
    ∃ lr, serviceSelfRemove ([1] ++ 5 :: [2]) 5 = some lr ∧ 5 ∉ lr :=
  run_error_exit_self_removes .malformed [1] [2] 5 (by decide) (by decide)

/-- Helper: deserializing the derived serialization of one registry entry
recovers it. -/
theorem restoreOne_encodeService (d : MonitorDescriptor) :
    restoreOne (encodeService d) = some d := by
  obtain ⟨c, t⟩ := d
  cases t <;>
    simp [restoreOne, encodeService, encodeMonitorType, decodeMonitorType,
      decodeId, encodeId, Json.index, Json.asStr, Json.asU64]

theorem restoreList_map_encodeService (l : List MonitorDescriptor) :
    restoreList (l.map encodeService) = some l := by
  induction l with
  | nil => rfl
  | cons d l ih => simp [restoreList, restoreOne_encodeService, ih]

/-- C9: restoring the persisted registry recovers exactly the list of
descriptors (channel id and variant, the anchor message id of Status
variants included), hence in particular the same set of descriptors. -/
theorem persist_restore_roundtrip (l : List MonitorDescriptor) :
    restore (persist l) = some l ∧
    ∀ d, d ∈ (restore (persist l)).getD [] ↔ d ∈ l := by
  have h : restore (persist l) = some l := by
    simp [restore, persist, restoreList_map_encodeService]
  exact ⟨h, fun d => by rw [h]; exact Iff.rfl⟩

/-- C10: a poll cycle that renders the OFFLINE state resets only the player
count (to 0) and the online-sample text (to "None"); the loop-carried state
is unchanged, so the version, description and player max it renders are
exactly the ones parsed by the most recent successful poll — and before any
successful poll they are the initial defaults "Unknown", "" and 0. -/
theorem offline_render_frame (name : String) (s s₁ : StatusState)
    (msg msg₁ : Message) (j : Json) (r₁ : Render)
    (h : run_status_iter name s (some msg) (.response j) true = .ok (s₁, r₁)) :
    (∀ s₀ : StatusState, run_status_iter name s₀ (some msg₁) .connectFail true
      = .ok (s₀, mkStatusRender name s₀ "OFFLINE" .red 0 "None")) ∧
    s₁.version = (parseStatus j).version ∧
    s₁.description = (parseStatus j).description ∧
    s₁.player_max = (parseStatus j).player_max ∧
    initialStatusState.version = "Unknown" ∧
    initialStatusState.description = "" ∧
    initialStatusState.player_max = 0 := by
  simp only [run_status_iter] at h
  split at h
  · split at h
    · exact absurd h (by simp)
    · simp only [if_true, Except.ok.injEq, Prod.mk.injEq] at h
      obtain ⟨hs', _⟩ := h
      subst hs'
      exact ⟨fun s₀ => rfl, rfl, rfl, rfl, rfl, rfl, rfl⟩
  · simp only [if_true, Except.ok.injEq, Prod.mk.injEq] at h
    obtain ⟨hs', _⟩ := h
    subst hs'
    exact ⟨fun s₀ => rfl, rfl, rfl, rfl, rfl, rfl, rfl⟩

/-- C10 witness: a successful poll of the empty status object followed by
an offline poll. -/
theorem offline_render_frame_witness :
    (run_status_iter "S"
        { version := "null", description := "null", player_max := 0,
          prev_favicon := "", attachments := .create [] }
        (some ⟨true, 0⟩) .connectFail true
      = .ok ({ version := "null", description := "null", player_max := 0,
               prev_favicon := "", attachments := .create [] },
          mkStatusRender "S"
            { version := "null", description := "null", player_max := 0,
              prev_favicon := "", attachments := .create [] }
            "OFFLINE" .red 0 "None")) ∧
    ("null" : String) = (parseStatus (Json.obj [])).version ∧
    ("null" : String) = (parseStatus (Json.obj [])).description ∧
    (0 : ℕ) = (parseStatus (Json.obj [])).player_max ∧
    initialStatusState.version = "Unknown" ∧
    initialStatusState.description = "" ∧
    initialStatusState.player_max = 0 := by
  have h : run_status_iter "S" initialStatusState (some ⟨true, 0⟩)
      (.response (Json.obj [])) true
      = .ok ({ version := "null", description := "null", player_max := 0,
               prev_favicon := "", attachments := .create [] },
          mkStatusRender "S"
            { version := "null", description := "null", player_max := 0,
              prev_favicon := "", attachments := .create [] }
            "ONLINE" .fooyoo 0 "Unknown") := by
    simp [run_status_iter, parseStatus, Json.index, Json.asU64, Json.asArr,
      Json.asStr, Json.render, splitOnceAfterComma, splitAfterCommaChars,
      base64Decode, base64DecodeGo, initialStatusState, mkStatusRender]
  have H := offline_render_frame "S" initialStatusState
    { version := "null", description := "null", player_max := 0,
      prev_favicon := "", attachments := .create [] }
    ⟨true, 0⟩ ⟨true, 0⟩ (Json.obj []) _ h
  exact ⟨H.1 _, H.2⟩

end Girlscout
